import Mathlib

/-
Verification of the pytrade repository (oanda_trading.py): a shallow
embedding of the tick-to-bar aggregation pipeline, the RSI-driven signal
evaluator and the order construction, together with theorems settling the
frozen claims about the specification.

Modelling conventions, chosen to mirror the Python source:
* prices and account amounts are rationals (ℚ); the source uses floats, and
  every claim is about exact field arithmetic on finite values;
* timestamps are integers (ℤ), in seconds; the source stores the window
  start as a formatted local-time string with one-second resolution and
  parses it back with time.mktime, which is the identity on whole seconds;
* the float sentinels float('-inf') / float('inf') used to initialize the
  high / low fields are modelled as `none`, with max/min folded in exactly
  as the source does (max(-inf, p) = p, min(inf, p) = p);
* the per-instrument entries of the global dicts ohlc_data and tick_count
  are modelled for one fixed instrument, as one accumulator record; all
  claims are per-instrument facts;
* the external collaborators (position oracle, account balance, fresh price
  query, wall-clock trading-hours inputs) are passed in as explicit inputs.
-/

/-- The OHLC accumulator held in ohlc_data[instrument], plus the
tick_count[instrument] counter that is written alongside it
(oanda_trading.py lines 13-23).  `h = none` models float('-inf') and
`l = none` models float('inf'). -/
structure Ohlc where
  o : Option ℚ
  h : Option ℚ
  l : Option ℚ
  c : Option ℚ
  volume : ℕ
  tick : ℕ
  start_time : ℤ
deriving DecidableEq, Repr

/-- initialize_ohlc (lines 13-23): fresh accumulator whose start_time is the
current time `now`. -/
def initialize_ohlc (now : ℤ) : Ohlc :=
  { o := none, h := none, l := none, c := none,
    volume := 0, tick := 0, start_time := now }

/-- update_ohlc (lines 25-36): set open on the first tick, then fold the
price into high/low with max/min, set close, and increment volume and
tick_count.  There is no validation of the price. -/
def update_ohlc (a : Ohlc) (price : ℚ) : Ohlc :=
  { a with
    o := match a.o with
         | none => some price
         | some x => some x
    h := some (match a.h with
         | none => price
         | some x => max x price)
    l := some (match a.l with
         | none => price
         | some x => min x price)
    c := some price
    volume := a.volume + 1
    tick := a.tick + 1 }

/-- reset_ohlc (lines 38-49): identical to initialization, with start_time
set to the current time at the moment of the reset. -/
def reset_ohlc (now : ℤ) : Ohlc :=
  { o := none, h := none, l := none, c := none,
    volume := 0, tick := 0, start_time := now }

/-- One row of the ohlc_df DataFrame (the new_row built in
process_forex_data, lines 74-81). -/
structure Bar where
  start_time : ℤ
  o : Option ℚ
  h : Option ℚ
  l : Option ℚ
  c : Option ℚ
  volume : ℕ
deriving DecidableEq, Repr

/-- The new_row built at finalization time (lines 67-81) copies the
accumulator's fields. -/
def mkRow (a : Ohlc) : Bar :=
  { start_time := a.start_time, o := a.o, h := a.h, l := a.l, c := a.c,
    volume := a.volume }

/-- The start_time cell holds a formatted time string, which is never NA in
pandas. -/
def start_time_isNA (_ : ℤ) : Bool := false

/-- The volume cell holds an integer, which is never NA in pandas. -/
def volume_isNA (_ : ℕ) : Bool := false

/-- The guard new_row.isna().all(axis=1).any() of line 84: the single row is
skipped only when every one of its cells is NA.  A None (o or c of a bar
with no ticks) is NA; the float('-inf')/float('inf') sentinels in h/l are
not NA, but are modelled by the same Option, so they are conservatively
included here; the start_time and volume cells are never NA, hence the
conjunction is never true. -/
def rowAllNA (b : Bar) : Bool :=
  start_time_isNA b.start_time && b.o.isNone && b.h.isNone && b.l.isNone
    && b.c.isNone && volume_isNA b.volume

/-- Line 86: ohlc_df = pd.concat([ohlc_df or None, new_row]) appends the
row, guarded by the all-NA check of line 84. -/
def appendRow (df : List Bar) (b : Bar) : List Bar :=
  if rowAllNA b then df else df ++ [b]

/-- Modelled from the spec: calculate_rsi (line 161) delegates to ta.rsi of
the external pandas_ta library, which is not part of this repository.  The
spec describes it as the average-gain/average-loss ratio over the last 14
close-to-close deltas using Wilder smoothing, undefined until 15 closes
(14 deltas) exist, with RSI = 100 when the average loss is exactly 0 and
RSI = 0 when the average gain is 0 and the average loss is positive.
The close-to-close deltas of the series of closes. -/
def diffs (closes : List ℚ) : List ℚ :=
  List.zipWith (fun prev next => next - prev) closes closes.tail

/-- Modelled from the spec: the lookback, the last 14 close-to-close
deltas. -/
def lookback (closes : List ℚ) : List ℚ :=
  (diffs closes).drop ((diffs closes).length - 14)

/-- Modelled from the spec: the average gain over the lookback (losses
count as 0). -/
def avg_gain (closes : List ℚ) : ℚ :=
  ((lookback closes).map (fun d => max d 0)).sum / 14

/-- Modelled from the spec: the average loss over the lookback (gains
count as 0), as a nonnegative magnitude. -/
def avg_loss (closes : List ℚ) : ℚ :=
  ((lookback closes).map (fun d => max (-d) 0)).sum / 14

/-- Modelled from the spec: RSI(14).  Undefined (none, the NaN/None of the
pandas column) until 15 closes exist; 100 when the average loss is exactly
0; otherwise 100·gain/(gain+loss), which is 0 exactly when the average gain
is 0. -/
def rsi (closes : List ℚ) : Option ℚ :=
  if closes.length < 15 then none
  else some (if avg_loss closes = 0 then 100
             else 100 * avg_gain closes / (avg_gain closes + avg_loss closes))

/-- The close column of ohlc_df; every appended row has c set, so the
default value is never read. -/
def closesOf (df : List Bar) : List ℚ :=
  df.map (fun b => b.c.getD 0)

/-- The RSI cell of the last row of ohlc_df after calculate_rsi ran on the
whole column (lines 160-161 and 300): the RSI over all closes.  `none`
stands for the absent value (the None column written when the series is too
short, or NaN). -/
def latestRSI (df : List Bar) : Option ℚ :=
  rsi (closesOf df)

/-- One bid/ask pair returned by the fresh price query get_current_price
(lines 169-184): bids[0].price and asks[0].price. -/
structure PriceData where
  ask : ℚ
  bid : ℚ
deriving DecidableEq, Repr

/-- Line 199: pip value is 0.0001 unless the instrument name contains
"JPY", in which case it is 0.01. -/
def pip_value (instrument : String) : ℚ :=
  if "JPY".toList <:+: instrument.toList then 1/100 else 1/10000

/-- Line 202: stop loss price = current price - sl · pip. -/
def stop_loss_price (current sl pip : ℚ) : ℚ := current - sl * pip

/-- Line 203: take profit price = current price + tp · pip. -/
def take_profit_price (current tp pip : ℚ) : ℚ := current + tp * pip

/-- The order dict built by place_order (lines 206-220). -/
structure OrderData where
  units : ℤ
  instrument : String
  timeInForce : String
  orderType : String
  positionFill : String
  stopLossOnFill : Option ℚ
  takeProfitOnFill : Option ℚ
deriving DecidableEq, Repr

/-- place_order (lines 186-232).  Returns none when the price query gave no
price (line 189).  The current price is asks[0] for units > 0 and bids[0]
otherwise (line 196).  The sl/tp prices are attached only when truthy
(lines 217-220): a None offset yields no price, and a computed price of
exactly 0.0 is falsy in Python and is also dropped. -/
def place_order (price_data : Option PriceData) (instrument : String)
    (units : ℤ) (sl tp : Option ℚ) : Option OrderData :=
  match price_data with
  | none => none
  | some pd =>
    let current : ℚ := if 0 < units then pd.ask else pd.bid
    let pip : ℚ := pip_value instrument
    let slp : Option ℚ := sl.map (fun s => stop_loss_price current s pip)
    let tpp : Option ℚ := tp.map (fun t => take_profit_price current t pip)
    some { units := units, instrument := instrument,
           timeInForce := "FOK", orderType := "MARKET",
           positionFill := "DEFAULT",
           stopLossOnFill := slp.bind (fun x => if x = 0 then none else some x),
           takeProfitOnFill := tpp.bind (fun x => if x = 0 then none else some x) }

/-- buy_order (lines 234-235): places the order with the units as given. -/
def buy_order (price_data : Option PriceData) (instrument : String)
    (units : ℤ) (sl tp : Option ℚ) : Option OrderData :=
  place_order price_data instrument units sl tp

/-- sell_order (lines 237-238): places the order with units · (-1). -/
def sell_order (price_data : Option PriceData) (instrument : String)
    (units : ℤ) (sl tp : Option ℚ) : Option OrderData :=
  place_order price_data instrument (units * -1) sl tp

/-- calculate_pos (lines 252-254): int(balance · leverage), Python's int()
truncating toward zero, modelled by Int.tdiv of the rational's numerator by
its denominator. -/
def calculate_pos (balance leverage : ℚ) : ℤ :=
  (balance * leverage).num.tdiv (balance * leverage).den

/-- should_trade (lines 256-270).  weekday: 0 = Monday … 6 = Sunday; tod is
the local time of day in seconds since midnight.  The comparison start_time
<= current_time <= end_time on datetime.time values with whole-second bounds
is the comparison of seconds since midnight; both bounds are inclusive.
The code's window is 06:00:00 to 22:00:00 on Monday through Friday. -/
def should_trade (weekday : ℕ) (tod : ℕ) : Bool :=
  if weekday ≤ 4 then
    if 6 * 3600 ≤ tod ∧ tod ≤ 22 * 3600 then true else false
  else false

/-- One entry of the positions list returned by the openPositions endpoint
(lines 272-293): the instrument with its long and short unit counts. -/
structure PositionRec where
  instrument : String
  longUnits : ℚ
  shortUnits : ℚ
deriving DecidableEq, Repr

/-- The dict returned by get_open_positions for an open position. -/
structure OpenPos where
  posType : String
  units : ℚ
deriving DecidableEq, Repr

/-- get_open_positions (lines 272-293): scan the positions list; at the
first entry for the requested instrument, report a buy position when its
long units are positive, a sell position when its short units are negative,
and none otherwise (returning immediately in each case); none when no entry
matches. -/
def get_open_positions : List PositionRec → String → Option OpenPos
  | [], _ => none
  | p :: rest, instrument =>
    if p.instrument = instrument then
      if 0 < p.longUnits then some { posType := "buy", units := p.longUnits }
      else if p.shortUnits < 0 then some { posType := "sell", units := p.shortUnits }
      else none
    else get_open_positions rest instrument

/-- trade_based_on_rsi (lines 295-320).  Returns the list of dispatched
orders (empty or a single order).  The latest RSI cell is none when the
column is absent/None, in which case the `latest_rsi == None` early return
of line 301 fires; a NaN cell would instead fall through to the RSI
comparisons of lines 311 and 317, which are false for NaN — either way no
order results, so the none case returns [] faithfully.  The position size is
computed with the default leverage 15 (line 304); an open position (line
305) or a time outside the trading window (line 309) yields no order; RSI
below 30 dispatches a buy, RSI above 70 dispatches a sell, with the
hardcoded sl and tp offsets passed in by the caller. -/
def trade_based_on_rsi (df : List Bar) (positions : List PositionRec)
    (weekday tod : ℕ) (balance : ℚ) (price_data : Option PriceData)
    (instrument : String) (sl tp : ℚ) : List OrderData :=
  if df.isEmpty then []
  else
    match latestRSI df with
    | none => []
    | some latest_rsi =>
      let position := calculate_pos balance 15
      if (get_open_positions positions instrument).isSome then []
      else if should_trade weekday tod then
        if latest_rsi < 30 then
          (buy_order price_data instrument position (some sl) (some tp)).toList
        else if 70 < latest_rsi then
          (sell_order price_data instrument position (some sl) (some tp)).toList
        else []
      else []

/-- One PRICE message reduced to what process_forex_data reads: the arrival
time (time.time() at processing, whole seconds) and bids[0].price. -/
structure Tick where
  time : ℤ
  price : ℚ
deriving DecidableEq, Repr

/-- The external inputs read during one finalization: the position oracle's
response, the wall-clock trading-hours inputs, the account balance and the
fresh price query's answer, plus the instrument the stream carries. -/
structure Env where
  positions : List PositionRec
  weekday : ℕ
  tod : ℕ
  balance : ℚ
  price_data : Option PriceData
  instrument : String

/-- The mutable state process_forex_data touches: the accumulator, the
ohlc_df bar series, and the log of orders dispatched so far. -/
structure StreamState where
  acc : Ohlc
  df : List Bar
  orders : List OrderData
deriving DecidableEq, Repr

/-- The state right after initialize_ohlc ran at time t0 (line 124). -/
def initState (t0 : ℤ) : StreamState :=
  { acc := initialize_ohlc t0, df := [], orders := [] }

/-- process_forex_data (lines 51-106) for one PRICE tick with a bid, with
window length `timeframe` seconds: update the accumulator first (line 61),
then, when now - start_time ≥ timeframe (line 66), append the row built
from the accumulator, run the indicators and the trader with sl=25, tp=25
(line 94), and reset the accumulator with start_time = now. -/
def processTick (timeframe : ℤ) (env : Env) (s : StreamState) (t : Tick) :
    StreamState :=
  let acc := update_ohlc s.acc t.price
  if timeframe ≤ t.time - acc.start_time then
    let df := appendRow s.df (mkRow acc)
    let newOrders := trade_based_on_rsi df env.positions env.weekday env.tod
      env.balance env.price_data env.instrument 25 25
    { acc := reset_ohlc t.time, df := df, orders := s.orders ++ newOrders }
  else
    { s with acc := acc }

/-- The stream loop (lines 127-136): process the ticks in order. -/
def processStream (timeframe : ℤ) (env : Env) (s : StreamState)
    (ticks : List Tick) : StreamState :=
  ticks.foldl (processTick timeframe env) s

/-! ### Helper lemmas about folding update_ohlc over a list of prices -/

lemma foldl_update_volume (ps : List ℚ) (a : Ohlc) :
    (ps.foldl update_ohlc a).volume = a.volume + ps.length := by
  induction ps generalizing a with
  | nil => simp
  | cons p ps ih =>
    simp only [List.foldl_cons, ih, update_ohlc, List.length_cons]
    omega

lemma foldl_update_tick (ps : List ℚ) (a : Ohlc) :
    (ps.foldl update_ohlc a).tick = a.tick + ps.length := by
  induction ps generalizing a with
  | nil => simp
  | cons p ps ih =>
    simp only [List.foldl_cons, ih, update_ohlc, List.length_cons]
    omega

lemma foldl_update_start (ps : List ℚ) (a : Ohlc) :
    (ps.foldl update_ohlc a).start_time = a.start_time := by
  induction ps generalizing a with
  | nil => rfl
  | cons p ps ih => simp only [List.foldl_cons, ih, update_ohlc]

lemma foldl_update_c (ps : List ℚ) (a : Ohlc) (hne : ps ≠ []) :
    (ps.foldl update_ohlc a).c = ps.getLast? := by
  induction ps generalizing a with
  | nil => exact absurd rfl hne
  | cons p ps ih =>
    cases ps with
    | nil => rfl
    | cons q ps' =>
      rw [List.foldl_cons, ih (update_ohlc a p) (by simp),
        List.getLast?_cons_cons]

lemma foldl_update_o_some (ps : List ℚ) (a : Ohlc) (x : ℚ) (hx : a.o = some x) :
    (ps.foldl update_ohlc a).o = some x := by
  induction ps generalizing a with
  | nil => exact hx
  | cons p ps ih =>
    rw [List.foldl_cons]
    exact ih (update_ohlc a p) (by simp [update_ohlc, hx])

lemma foldl_update_o (ps : List ℚ) (a : Ohlc) (ha : a.o = none) (hne : ps ≠ []) :
    (ps.foldl update_ohlc a).o = ps.head? := by
  cases ps with
  | nil => exact absurd rfl hne
  | cons p ps' =>
    rw [List.foldl_cons]
    exact foldl_update_o_some ps' (update_ohlc a p) p (by simp [update_ohlc, ha])

lemma foldl_update_h_some (ps : List ℚ) (a : Ohlc) (x : ℚ) (hx : a.h = some x) :
    (ps.foldl update_ohlc a).h = some (ps.foldl max x) := by
  induction ps generalizing a x with
  | nil => exact hx
  | cons p ps ih =>
    rw [List.foldl_cons, List.foldl_cons]
    exact ih (update_ohlc a p) (max x p) (by simp [update_ohlc, hx])

lemma foldl_update_h (ps : List ℚ) (a : Ohlc) (ha : a.h = none) (p : ℚ)
    (ps' : List ℚ) (hps : ps = p :: ps') :
    (ps.foldl update_ohlc a).h = some (ps'.foldl max p) := by
  subst hps
  rw [List.foldl_cons]
  exact foldl_update_h_some ps' (update_ohlc a p) p (by simp [update_ohlc, ha])

lemma foldl_update_l_some (ps : List ℚ) (a : Ohlc) (x : ℚ) (hx : a.l = some x) :
    (ps.foldl update_ohlc a).l = some (ps.foldl min x) := by
  induction ps generalizing a x with
  | nil => exact hx
  | cons p ps ih =>
    rw [List.foldl_cons, List.foldl_cons]
    exact ih (update_ohlc a p) (min x p) (by simp [update_ohlc, hx])

lemma foldl_update_l (ps : List ℚ) (a : Ohlc) (ha : a.l = none) (p : ℚ)
    (ps' : List ℚ) (hps : ps = p :: ps') :
    (ps.foldl update_ohlc a).l = some (ps'.foldl min p) := by
  subst hps
  rw [List.foldl_cons]
  exact foldl_update_l_some ps' (update_ohlc a p) p (by simp [update_ohlc, ha])

lemma foldl_max_mem (l : List ℚ) (x : ℚ) : l.foldl max x ∈ x :: l := by
  induction l generalizing x with
  | nil => simp
  | cons y l ih =>
    rw [List.foldl_cons]
    rcases List.mem_cons.mp (ih (max x y)) with h' | h'
    · rw [h']
      rcases max_choice x y with h | h <;> rw [h]
      · exact List.mem_cons_self x (y :: l)
      · exact List.mem_cons_of_mem x (List.mem_cons_self y l)
    · exact List.mem_cons_of_mem x (List.mem_cons_of_mem y h')

lemma le_foldl_max (l : List ℚ) (x : ℚ) : x ≤ l.foldl max x := by
  induction l generalizing x with
  | nil => simp
  | cons y l ih =>
    rw [List.foldl_cons]
    exact le_trans (le_max_left x y) (ih (max x y))

lemma foldl_max_le_all (l : List ℚ) (x : ℚ) :
    ∀ q ∈ l, q ≤ l.foldl max x := by
  induction l generalizing x with
  | nil => simp
  | cons y l ih =>
    intro q hq
    rw [List.foldl_cons]
    rcases List.mem_cons.mp hq with h | h
    · rw [h]
      exact le_trans (le_max_right x y) (le_foldl_max l (max x y))
    · exact ih (max x y) q h

lemma foldl_min_mem (l : List ℚ) (x : ℚ) : l.foldl min x ∈ x :: l := by
  induction l generalizing x with
  | nil => simp
  | cons y l ih =>
    rw [List.foldl_cons]
    rcases List.mem_cons.mp (ih (min x y)) with h' | h'
    · rw [h']
      rcases min_choice x y with h | h <;> rw [h]
      · exact List.mem_cons_self x (y :: l)
      · exact List.mem_cons_of_mem x (List.mem_cons_self y l)
    · exact List.mem_cons_of_mem x (List.mem_cons_of_mem y h')

lemma foldl_min_le (l : List ℚ) (x : ℚ) : l.foldl min x ≤ x := by
  induction l generalizing x with
  | nil => simp
  | cons y l ih =>
    rw [List.foldl_cons]
    exact le_trans (ih (min x y)) (min_le_left x y)

lemma foldl_min_le_all (l : List ℚ) (x : ℚ) :
    ∀ q ∈ l, l.foldl min x ≤ q := by
  induction l generalizing x with
  | nil => simp
  | cons y l ih =>
    intro q hq
    rw [List.foldl_cons]
    rcases List.mem_cons.mp hq with h | h
    · rw [h]
      exact le_trans (foldl_min_le l (min x y)) (min_le_right x y)
    · exact ih (min x y) q h

/-- C1: For every non-empty sequence of ticks processed by the aggregator
within one window for one instrument, the finalized bar satisfies: open
equals the first tick's price, high equals the maximum of all tick prices,
low equals the minimum, close equals the last tick's price, and volume
equals the number of ticks. -/
theorem C1_bar_aggregation (t0 : ℤ) (ps : List ℚ) (hne : ps ≠ []) :
    ∃ hi lo : ℚ,
      (mkRow (ps.foldl update_ohlc (initialize_ohlc t0))).h = some hi ∧
      (mkRow (ps.foldl update_ohlc (initialize_ohlc t0))).l = some lo ∧
      hi ∈ ps ∧ (∀ p ∈ ps, p ≤ hi) ∧
      lo ∈ ps ∧ (∀ p ∈ ps, lo ≤ p) ∧
      (mkRow (ps.foldl update_ohlc (initialize_ohlc t0))).o = ps.head? ∧
      (mkRow (ps.foldl update_ohlc (initialize_ohlc t0))).c = ps.getLast? ∧
      (mkRow (ps.foldl update_ohlc (initialize_ohlc t0))).volume = ps.length := by
  cases ps with
  | nil => exact absurd rfl hne
  | cons p ps' =>
    refine ⟨ps'.foldl max p, ps'.foldl min p, ?_, ?_, ?_, ?_, ?_, ?_, ?_, ?_, ?_⟩
    · simpa [mkRow] using
        foldl_update_h (p :: ps') (initialize_ohlc t0) rfl p ps' rfl
    · simpa [mkRow] using
        foldl_update_l (p :: ps') (initialize_ohlc t0) rfl p ps' rfl
    · exact foldl_max_mem ps' p
    · intro q hq
      rcases List.mem_cons.mp hq with h | h
      · exact h ▸ le_foldl_max ps' p
      · exact foldl_max_le_all ps' p q h
    · exact foldl_min_mem ps' p
    · intro q hq
      rcases List.mem_cons.mp hq with h | h
      · exact h ▸ foldl_min_le ps' p
      · exact foldl_min_le_all ps' p q h
    · simpa [mkRow] using
        foldl_update_o (p :: ps') (initialize_ohlc t0) rfl (by simp)
    · simpa [mkRow] using
        foldl_update_c (p :: ps') (initialize_ohlc t0) (by simp)
    · simpa [mkRow, initialize_ohlc] using
        foldl_update_volume (p :: ps') (initialize_ohlc t0)

/-- Witness for C1 at the concrete tick sequence [3, 1, 2]. -/
theorem C1_bar_aggregation_witness :
    ([(3 : ℚ), 1, 2] ≠ []) ∧
    (∃ hi lo : ℚ,
      (mkRow ([(3 : ℚ), 1, 2].foldl update_ohlc (initialize_ohlc 0))).h = some hi ∧
      (mkRow ([(3 : ℚ), 1, 2].foldl update_ohlc (initialize_ohlc 0))).l = some lo ∧
      hi ∈ [(3 : ℚ), 1, 2] ∧ (∀ p ∈ [(3 : ℚ), 1, 2], p ≤ hi) ∧
      lo ∈ [(3 : ℚ), 1, 2] ∧ (∀ p ∈ [(3 : ℚ), 1, 2], lo ≤ p) ∧
      (mkRow ([(3 : ℚ), 1, 2].foldl update_ohlc (initialize_ohlc 0))).o =
        [(3 : ℚ), 1, 2].head? ∧
      (mkRow ([(3 : ℚ), 1, 2].foldl update_ohlc (initialize_ohlc 0))).c =
        [(3 : ℚ), 1, 2].getLast? ∧
      (mkRow ([(3 : ℚ), 1, 2].foldl update_ohlc (initialize_ohlc 0))).volume =
        [(3 : ℚ), 1, 2].length) :=
  ⟨by decide, C1_bar_aggregation 0 [3, 1, 2] (by decide)⟩

/-- Counterexample for C3: the tick price -1 is ≤ 0, yet update_ohlc does
change the accumulator (there is no InvalidTick validation in the code):
the fresh accumulator's close becomes -1 and its tick count becomes 1. -/
theorem C3_counterexample :
    ((-1 : ℚ) ≤ 0) ∧
    ¬ (update_ohlc (initialize_ohlc 0) (-1) = initialize_ohlc 0) ∧
    (update_ohlc (initialize_ohlc 0) (-1)).c = some (-1) ∧
    (update_ohlc (initialize_ohlc 0) (-1)).volume = 1 := by
  refine ⟨by norm_num, ?_, ?_, ?_⟩ <;> simp [update_ohlc, initialize_ohlc]

/-- C3 amended: update_ohlc performs no price validation.  A tick whose
price is ≤ 0 is incorporated like any other tick: the accumulator changes
(close becomes the price, the tick count and volume increment, open is set
if it was unset) and processing simply continues; no InvalidTick failure
exists and the tick is not dropped. -/
theorem C3_no_validation (a : Ohlc) (p : ℚ) (_hp : p ≤ 0) :
    update_ohlc a p ≠ a ∧
    (update_ohlc a p).volume = a.volume + 1 ∧
    (update_ohlc a p).tick = a.tick + 1 ∧
    (update_ohlc a p).c = some p ∧
    (update_ohlc a p).o = (match a.o with | none => some p | some x => some x) ∧
    (update_ohlc a p).start_time = a.start_time := by
  refine ⟨?_, rfl, rfl, rfl, rfl, rfl⟩
  intro heq
  have hv := congrArg Ohlc.volume heq
  simp only [update_ohlc] at hv
  omega

/-- Witness for C3's amended theorem at the concrete bad tick price -1. -/
theorem C3_no_validation_witness :
    ((-1 : ℚ) ≤ 0) ∧
    (update_ohlc (initialize_ohlc 5) (-1) ≠ initialize_ohlc 5 ∧
     (update_ohlc (initialize_ohlc 5) (-1)).volume = (initialize_ohlc 5).volume + 1 ∧
     (update_ohlc (initialize_ohlc 5) (-1)).tick = (initialize_ohlc 5).tick + 1 ∧
     (update_ohlc (initialize_ohlc 5) (-1)).c = some (-1) ∧
     (update_ohlc (initialize_ohlc 5) (-1)).o =
       (match (initialize_ohlc 5).o with | none => some (-1) | some x => some x) ∧
     (update_ohlc (initialize_ohlc 5) (-1)).start_time = (initialize_ohlc 5).start_time) :=
  ⟨by norm_num, C3_no_validation (initialize_ohlc 5) (-1) (by norm_num)⟩

/-- C4: For every indicator snapshot and every RSI value, if the position
oracle reports an existing open position for the instrument, the signal
evaluator emits no buy or sell signal and dispatches no order. -/
theorem C4_no_trade_with_open_position (df : List Bar)
    (positions : List PositionRec) (weekday tod : ℕ) (balance : ℚ)
    (price_data : Option PriceData) (instrument : String) (sl tp : ℚ)
    (hpos : (get_open_positions positions instrument).isSome = true) :
    trade_based_on_rsi df positions weekday tod balance price_data
      instrument sl tp = [] := by
  unfold trade_based_on_rsi
  split
  · rfl
  · split
    · rfl
    · simp [hpos]

/-- Witness for C4: a long EUR_USD position is open (the oracle reports it)
and no order is dispatched, for a one-bar series. -/
theorem C4_no_trade_with_open_position_witness :
    ((get_open_positions
        [{ instrument := "EUR_USD", longUnits := 1000, shortUnits := 0 }]
        "EUR_USD").isSome = true) ∧
    trade_based_on_rsi
      [{ start_time := 0, o := some 2, h := some 2, l := some 2, c := some 2,
         volume := 1 }]
      [{ instrument := "EUR_USD", longUnits := 1000, shortUnits := 0 }]
      0 43200 100 none "EUR_USD" 25 25 = [] :=
  ⟨by decide, C4_no_trade_with_open_position _ _ _ _ _ _ _ _ _ (by decide)⟩

/-- C5: For every evaluation time outside the configured trading window
(weekdays Monday-Friday, 06:00:00 through 22:00:00 inclusive), the signal
evaluator emits no buy or sell signal regardless of the RSI value. -/
theorem C5_no_trade_outside_window (df : List Bar)
    (positions : List PositionRec) (weekday tod : ℕ) (balance : ℚ)
    (price_data : Option PriceData) (instrument : String) (sl tp : ℚ)
    (hout : should_trade weekday tod = false) :
    trade_based_on_rsi df positions weekday tod balance price_data
      instrument sl tp = [] := by
  unfold trade_based_on_rsi
  split
  · rfl
  · split
    · rfl
    · simp [hout]

/-- Witness for C5: on a Saturday (weekday 5) at noon no order is
dispatched, whatever the series is. -/
theorem C5_no_trade_outside_window_witness :
    (should_trade 5 43200 = false) ∧
    trade_based_on_rsi
      [{ start_time := 0, o := some 2, h := some 2, l := some 2, c := some 2,
         volume := 1 }]
      [] 5 43200 100 none "EUR_USD" 25 25 = [] :=
  ⟨by decide, C5_no_trade_outside_window _ _ _ _ _ _ _ _ _ (by decide)⟩

/-- Helper: the all-NA guard never fires (the start_time and volume cells
are never NA), so the concat of line 86 appends unconditionally. -/
lemma appendRow_eq (df : List Bar) (b : Bar) : appendRow df b = df ++ [b] := by
  simp [appendRow, rowAllNA, start_time_isNA]

/-- Counterexample for C8: appending a bar whose start_time (0) is not
strictly greater than the previous bar's (5) succeeds and changes the
series — there is no OutOfOrderBar check in the code. -/
theorem C8_counterexample :
    (Bar.mk 0 (some 2) (some 2) (some 2) (some 2) 1).start_time ≤
      (Bar.mk 5 (some 1) (some 1) (some 1) (some 1) 1).start_time ∧
    appendRow [Bar.mk 5 (some 1) (some 1) (some 1) (some 1) 1]
        (Bar.mk 0 (some 2) (some 2) (some 2) (some 2) 1) ≠
      [Bar.mk 5 (some 1) (some 1) (some 1) (some 1) 1] ∧
    appendRow [Bar.mk 5 (some 1) (some 1) (some 1) (some 1) 1]
        (Bar.mk 0 (some 2) (some 2) (some 2) (some 2) 1) =
      [Bar.mk 5 (some 1) (some 1) (some 1) (some 1) 1,
       Bar.mk 0 (some 2) (some 2) (some 2) (some 2) 1] := by
  refine ⟨by decide, ?_, by decide⟩
  decide

/-- C8 amended: the append of line 86 enforces no chronological order at
all.  Every bar row (its start_time string and volume cells are never NA,
so the all-NA guard of line 84 never fires) is appended unconditionally,
whatever its windowStart: the series always grows by exactly that bar. -/
theorem C8_append_unconditional (df : List Bar) (b : Bar) :
    appendRow df b = df ++ [b] ∧
    (appendRow df b).length = df.length + 1 := by
  refine ⟨appendRow_eq df b, ?_⟩
  rw [appendRow_eq df b]
  simp

/-- Helper: one processTick step preserves the stream invariant that every
bar in the series has volume ≥ 1 and that the accumulator's volume equals
its tick_count. -/
lemma processTick_invariant (timeframe : ℤ) (env : Env) (s : StreamState)
    (t : Tick) (hdf : ∀ b ∈ s.df, 1 ≤ b.volume)
    (hacc : s.acc.volume = s.acc.tick) :
    (∀ b ∈ (processTick timeframe env s t).df, 1 ≤ b.volume) ∧
    (processTick timeframe env s t).acc.volume =
      (processTick timeframe env s t).acc.tick := by
  unfold processTick
  dsimp only
  split
  · refine ⟨?_, rfl⟩
    intro b hb
    rw [appendRow_eq] at hb
    simp only [List.mem_append, List.mem_singleton] at hb
    rcases hb with h | h
    · exact hdf b h
    · rw [h]
      simp [mkRow, update_ohlc]
  · exact ⟨hdf, by simp [update_ohlc, hacc]⟩

/-- Helper: the stream invariant holds along any tick stream. -/
lemma processStream_invariant (timeframe : ℤ) (env : Env)
    (ticks : List Tick) (s : StreamState) (hdf : ∀ b ∈ s.df, 1 ≤ b.volume)
    (hacc : s.acc.volume = s.acc.tick) :
    (∀ b ∈ (processStream timeframe env s ticks).df, 1 ≤ b.volume) ∧
    (processStream timeframe env s ticks).acc.volume =
      (processStream timeframe env s ticks).acc.tick := by
  induction ticks generalizing s with
  | nil => exact ⟨hdf, hacc⟩
  | cons t ts ih =>
    have hstep := processTick_invariant timeframe env s t hdf hacc
    exact ih (processTick timeframe env s t) hstep.1 hstep.2

/-- Counterexample for C7: start the stream at time 0 with a 60-second
window and let the window elapse with zero ticks.  Nothing runs at the
moment of elapse, so windowStart is NOT advanced; when the first tick then
arrives at time 120, it is first counted into the still-open accumulator
and a bar attributed to the elapsed zero-tick window (start_time 0, not an
advanced one) IS appended, with that late tick inside it — contradicting
both halves of the claim ("no Bar is appended" for that window, "windowStart
is still advanced"). -/
theorem C7_counterexample :
    (initState 0).acc.volume = 0 ∧
    (60 : ℤ) ≤ 120 - (initState 0).acc.start_time ∧
    (processTick 60
        { positions := [], weekday := 0, tod := 43200, balance := 100,
          price_data := none, instrument := "EUR_USD" }
        (initState 0) (Tick.mk 120 2)).df =
      [Bar.mk 0 (some 2) (some 2) (some 2) (some 2) 1] ∧
    (processTick 60
        { positions := [], weekday := 0, tod := 43200, balance := 100,
          price_data := none, instrument := "EUR_USD" }
        (initState 0) (Tick.mk 120 2)).acc.start_time = 120 := by
  refine ⟨rfl, by decide, ?_, rfl⟩
  decide

/-- C7 amended: a window that elapses with zero ticks causes no state
change at the moment of elapse — in particular windowStart is not advanced
then; the first tick to arrive afterwards is counted into the still-open
accumulator before the elapsed check fires, so every bar ever appended to
the series has volume ≥ 1, and the accumulator's volume always equals its
tick count (hence volume = tickCount at every finalization). -/
theorem C7_volume_invariant (timeframe : ℤ) (env : Env) (t0 : ℤ)
    (ticks : List Tick) :
    (∀ b ∈ (processStream timeframe env (initState t0) ticks).df,
      1 ≤ b.volume) ∧
    (processStream timeframe env (initState t0) ticks).acc.volume =
      (processStream timeframe env (initState t0) ticks).acc.tick := by
  exact processStream_invariant timeframe env ticks (initState t0)
    (by intro b hb; simp [initState] at hb) rfl

/-- Witness for C7's amended theorem: a single late tick produces one bar,
and that bar's volume is ≥ 1. -/
theorem C7_volume_invariant_witness :
    (Bar.mk 0 (some 2) (some 2) (some 2) (some 2) 1) ∈
      (processStream 60
        { positions := [], weekday := 1, tod := 43200, balance := 100,
          price_data := none, instrument := "EUR_USD" }
        (initState 0) [Tick.mk 120 2]).df ∧
    1 ≤ (Bar.mk 0 (some 2) (some 2) (some 2) (some 2) 1).volume :=
  ⟨by decide,
   (C7_volume_invariant 60
      { positions := [], weekday := 1, tod := 43200, balance := 100,
        price_data := none, instrument := "EUR_USD" }
      0 [Tick.mk 120 2]).1
     (Bar.mk 0 (some 2) (some 2) (some 2) (some 2) 1) (by decide)⟩

/-! ### Helper lemmas about the RSI gain/loss sums -/

lemma sum_map_max_nonneg (l : List ℚ) :
    0 ≤ (l.map (fun d => max d 0)).sum := by
  induction l with
  | nil => simp
  | cons d l ih =>
    simp only [List.map_cons, List.sum_cons]
    exact add_nonneg (le_max_right d 0) ih

lemma sum_map_max_eq_zero_iff (l : List ℚ) :
    (l.map (fun d => max d 0)).sum = 0 ↔ ∀ d ∈ l, d ≤ 0 := by
  induction l with
  | nil => simp
  | cons d l ih =>
    simp only [List.map_cons, List.sum_cons, List.mem_cons]
    rw [add_eq_zero_iff_of_nonneg (le_max_right d 0) (sum_map_max_nonneg l)]
    rw [max_eq_right_iff, ih]
    constructor
    · rintro ⟨h1, h2⟩ q hq
      rcases hq with h | h
      · exact h ▸ h1
      · exact h2 q h
    · intro h
      exact ⟨h d (Or.inl rfl), fun q hq => h q (Or.inr hq)⟩

lemma sum_map_maxneg_nonneg (l : List ℚ) :
    0 ≤ (l.map (fun d => max (-d) 0)).sum := by
  induction l with
  | nil => simp
  | cons d l ih =>
    simp only [List.map_cons, List.sum_cons]
    exact add_nonneg (le_max_right (-d) 0) ih

lemma sum_map_maxneg_eq_zero_iff (l : List ℚ) :
    (l.map (fun d => max (-d) 0)).sum = 0 ↔ ∀ d ∈ l, 0 ≤ d := by
  induction l with
  | nil => simp
  | cons d l ih =>
    simp only [List.map_cons, List.sum_cons, List.mem_cons]
    rw [add_eq_zero_iff_of_nonneg (le_max_right (-d) 0) (sum_map_maxneg_nonneg l)]
    rw [max_eq_right_iff, ih]
    constructor
    · rintro ⟨h1, h2⟩ q hq
      rcases hq with h | h
      · exact h ▸ (by linarith : (0 : ℚ) ≤ d)
      · exact h2 q h
    · intro h
      exact ⟨by have := h d (Or.inl rfl); linarith, fun q hq => h q (Or.inr hq)⟩

lemma avg_gain_nonneg (closes : List ℚ) : 0 ≤ avg_gain closes :=
  div_nonneg (sum_map_max_nonneg (lookback closes)) (by norm_num)

lemma avg_loss_nonneg (closes : List ℚ) : 0 ≤ avg_loss closes :=
  div_nonneg (sum_map_maxneg_nonneg (lookback closes)) (by norm_num)

lemma avg_gain_eq_zero_iff (closes : List ℚ) :
    avg_gain closes = 0 ↔ ∀ d ∈ lookback closes, d ≤ 0 := by
  unfold avg_gain
  rw [div_eq_zero_iff]
  simp only [sum_map_max_eq_zero_iff]
  norm_num

lemma avg_loss_eq_zero_iff (closes : List ℚ) :
    avg_loss closes = 0 ↔ ∀ d ∈ lookback closes, 0 ≤ d := by
  unfold avg_loss
  rw [div_eq_zero_iff]
  simp only [sum_map_maxneg_eq_zero_iff]
  norm_num

/-- C6: the RSI over the last 14 close-to-close deltas is absent until the
series has at least 15 closes; for every series of at least 15 closes its
value lies in [0, 100], equals 100 if and only if the lookback contains no
losses (every delta is ≥ 0), and equals 0 if and only if the lookback
contains no gains (every delta is ≤ 0) and at least one loss. -/
theorem C6_rsi_properties (closes : List ℚ) :
    (closes.length < 15 → rsi closes = none) ∧
    (15 ≤ closes.length → ∃ r : ℚ, rsi closes = some r ∧
      0 ≤ r ∧ r ≤ 100 ∧
      (r = 100 ↔ ∀ d ∈ lookback closes, 0 ≤ d) ∧
      (r = 0 ↔ (∀ d ∈ lookback closes, d ≤ 0) ∧
        ∃ d ∈ lookback closes, d < 0)) := by
  constructor
  · intro h
    simp [rsi, h]
  · intro hlen15
    have hlen : ¬ closes.length < 15 := not_lt.mpr hlen15
    by_cases hal : avg_loss closes = 0
    · refine ⟨100, by simp [rsi, hlen, hal], by norm_num, le_refl 100, ?_, ?_⟩
      · exact ⟨fun _ => (avg_loss_eq_zero_iff closes).mp hal, fun _ => rfl⟩
      · constructor
        · intro h100
          exact absurd h100 (by norm_num)
        · rintro ⟨_, d, hd, hdneg⟩
          have := (avg_loss_eq_zero_iff closes).mp hal d hd
          linarith
    · have hal_pos : 0 < avg_loss closes :=
        lt_of_le_of_ne (avg_loss_nonneg closes) (Ne.symm hal)
      have hag : 0 ≤ avg_gain closes := avg_gain_nonneg closes
      have hsum : 0 < avg_gain closes + avg_loss closes := by linarith
      refine ⟨100 * avg_gain closes / (avg_gain closes + avg_loss closes),
        by simp [rsi, hlen, hal], ?_, ?_, ?_, ?_⟩
      · positivity
      · rw [div_le_iff₀ hsum]
        linarith
      · constructor
        · intro heq
          rw [div_eq_iff (ne_of_gt hsum)] at heq
          have : avg_loss closes = 0 := by linarith
          exact absurd this hal
        · intro hnl
          exact absurd ((avg_loss_eq_zero_iff closes).mpr hnl) hal
      · constructor
        · intro heq
          have hag0 : avg_gain closes = 0 := by
            rcases div_eq_zero_iff.mp heq with h' | h'
            · rcases mul_eq_zero.mp h' with h'' | h''
              · norm_num at h''
              · exact h''
            · exact absurd h' (ne_of_gt hsum)
          refine ⟨(avg_gain_eq_zero_iff closes).mp hag0, ?_⟩
          by_contra hno
          push_neg at hno
          exact hal ((avg_loss_eq_zero_iff closes).mpr hno)
        · rintro ⟨hng, _⟩
          rw [(avg_gain_eq_zero_iff closes).mpr hng]
          simp

/-- Witness for C6 at a concrete 15-close strictly decreasing series. -/
theorem C6_rsi_properties_witness :
    (15 ≤ ([15, 14, 13, 12, 11, 10, 9, 8, 7, 6, 5, 4, 3, 2, 1] :
        List ℚ).length) ∧
    (∃ r : ℚ,
      rsi [15, 14, 13, 12, 11, 10, 9, 8, 7, 6, 5, 4, 3, 2, 1] = some r ∧
      0 ≤ r ∧ r ≤ 100 ∧
      (r = 100 ↔ ∀ d ∈
        lookback [15, 14, 13, 12, 11, 10, 9, 8, 7, 6, 5, 4, 3, 2, 1], 0 ≤ d) ∧
      (r = 0 ↔ (∀ d ∈
          lookback [15, 14, 13, 12, 11, 10, 9, 8, 7, 6, 5, 4, 3, 2, 1],
            d ≤ 0) ∧
        ∃ d ∈ lookback [15, 14, 13, 12, 11, 10, 9, 8, 7, 6, 5, 4, 3, 2, 1],
          d < 0)) :=
  ⟨by decide,
   (C6_rsi_properties [15, 14, 13, 12, 11, 10, 9, 8, 7, 6, 5, 4, 3, 2, 1]).2
     (by decide)⟩

/-- Helper: Python's int() truncation agrees with the floor for a
nonnegative product. -/
lemma calculate_pos_eq_floor (balance leverage : ℚ) (hb : 0 ≤ balance)
    (hl : 0 ≤ leverage) : calculate_pos balance leverage = ⌊balance * leverage⌋ := by
  unfold calculate_pos
  have hq : 0 ≤ balance * leverage := mul_nonneg hb hl
  have hnum : 0 ≤ (balance * leverage).num := Rat.num_nonneg.mpr hq
  rw [Int.tdiv_eq_ediv hnum (Int.ofNat_nonneg _), Rat.floor_def]

/-- Helper: the pip value is positive for every instrument. -/
lemma pip_value_pos (instrument : String) : 0 < pip_value instrument := by
  unfold pip_value
  split <;> norm_num

/-- Helper: EUR_USD does not contain JPY, so its pip value is 0.0001. -/
lemma pip_value_eurusd : pip_value "EUR_USD" = 1/10000 := by
  unfold pip_value
  rw [if_neg]
  decide

/-- C9: every dispatched order carries units = floor(balance × leverage)
(negated by sell_order), converts the sl/tp pip offsets with pip value 0.01
for JPY-quoted instruments and 0.0001 otherwise, and applies them to the
fresh price query's ask price for a buy (units > 0) and bid price for a
sell (units < 0) — never to a bar close, which place_order does not even
receive. -/
theorem C9_order_parameters (balance leverage sl tp : ℚ) (pd : PriceData)
    (instrument : String) (hb : 0 ≤ balance) (hl : 0 ≤ leverage)
    (hu : 0 < calculate_pos balance leverage)
    (h1 : pd.ask - sl * pip_value instrument ≠ 0)
    (h2 : pd.ask + tp * pip_value instrument ≠ 0)
    (h3 : pd.bid - sl * pip_value instrument ≠ 0)
    (h4 : pd.bid + tp * pip_value instrument ≠ 0) :
    calculate_pos balance leverage = ⌊balance * leverage⌋ ∧
    pip_value instrument =
      (if "JPY".toList <:+: instrument.toList then (1 : ℚ)/100 else 1/10000) ∧
    buy_order (some pd) instrument (calculate_pos balance leverage)
        (some sl) (some tp) =
      some { units := ⌊balance * leverage⌋, instrument := instrument,
             timeInForce := "FOK", orderType := "MARKET",
             positionFill := "DEFAULT",
             stopLossOnFill := some (pd.ask - sl * pip_value instrument),
             takeProfitOnFill := some (pd.ask + tp * pip_value instrument) } ∧
    sell_order (some pd) instrument (calculate_pos balance leverage)
        (some sl) (some tp) =
      some { units := -⌊balance * leverage⌋, instrument := instrument,
             timeInForce := "FOK", orderType := "MARKET",
             positionFill := "DEFAULT",
             stopLossOnFill := some (pd.bid - sl * pip_value instrument),
             takeProfitOnFill := some (pd.bid + tp * pip_value instrument) } := by
  have hfloor := calculate_pos_eq_floor balance leverage hb hl
  refine ⟨hfloor, rfl, ?_, ?_⟩
  · unfold buy_order place_order
    dsimp only
    rw [if_pos hu]
    simp [stop_loss_price, take_profit_price, h1, h2, hfloor]
  · unfold sell_order place_order
    dsimp only
    rw [if_neg (by omega : ¬ (0 : ℤ) < calculate_pos balance leverage * -1)]
    simp only [stop_loss_price, take_profit_price, Option.map_some]
    simp [h3, h4, hfloor]

/-- Witness for C9 at balance 100, leverage 15, ask 1.1, bid 1.09, sl = tp
= 25 pips on EUR_USD. -/
theorem C9_order_parameters_witness :
    (0 < calculate_pos 100 15) ∧
    (calculate_pos 100 15 = ⌊(100 : ℚ) * 15⌋ ∧
     pip_value "EUR_USD" =
       (if "JPY".toList <:+: "EUR_USD".toList then (1 : ℚ)/100 else 1/10000) ∧
     buy_order (some (PriceData.mk (11/10) (109/100))) "EUR_USD"
         (calculate_pos 100 15) (some 25) (some 25) =
       some { units := ⌊(100 : ℚ) * 15⌋, instrument := "EUR_USD",
              timeInForce := "FOK", orderType := "MARKET",
              positionFill := "DEFAULT",
              stopLossOnFill :=
                some ((11 : ℚ)/10 - 25 * pip_value "EUR_USD"),
              takeProfitOnFill :=
                some ((11 : ℚ)/10 + 25 * pip_value "EUR_USD") } ∧
     sell_order (some (PriceData.mk (11/10) (109/100))) "EUR_USD"
         (calculate_pos 100 15) (some 25) (some 25) =
       some { units := -⌊(100 : ℚ) * 15⌋, instrument := "EUR_USD",
              timeInForce := "FOK", orderType := "MARKET",
              positionFill := "DEFAULT",
              stopLossOnFill :=
                some ((109 : ℚ)/100 - 25 * pip_value "EUR_USD"),
              takeProfitOnFill :=
                some ((109 : ℚ)/100 + 25 * pip_value "EUR_USD") }) :=
  have hu : 0 < calculate_pos 100 15 := by
    unfold calculate_pos
    rw [show (100 : ℚ) * 15 = 1500 from by norm_num]
    decide
  ⟨hu,
   C9_order_parameters 100 15 25 25 (PriceData.mk (11/10) (109/100))
     "EUR_USD" (by norm_num) (by norm_num) hu
     (by rw [pip_value_eurusd]; norm_num)
     (by rw [pip_value_eurusd]; norm_num)
     (by rw [pip_value_eurusd]; norm_num)
     (by rw [pip_value_eurusd]; norm_num)⟩

/-- C10: for every order, the attached stop-loss price is the fresh base
price minus sl × pip and the take-profit price is the base price plus
tp × pip, with the same signs for buy (units > 0) and sell (units < 0)
orders alike; in particular a sell order's take-profit price lies above its
entry price (the bid) and its stop-loss price below it. -/
theorem C10_sl_tp_same_signs (pd : PriceData) (instrument : String)
    (sl tp : ℚ) (ub us : ℤ) (hub : 0 < ub) (hus : us < 0)
    (hsl : 0 < sl) (htp : 0 < tp)
    (h1 : pd.ask - sl * pip_value instrument ≠ 0)
    (h2 : pd.ask + tp * pip_value instrument ≠ 0)
    (h3 : pd.bid - sl * pip_value instrument ≠ 0)
    (h4 : pd.bid + tp * pip_value instrument ≠ 0) :
    place_order (some pd) instrument ub (some sl) (some tp) =
      some { units := ub, instrument := instrument,
             timeInForce := "FOK", orderType := "MARKET",
             positionFill := "DEFAULT",
             stopLossOnFill := some (pd.ask - sl * pip_value instrument),
             takeProfitOnFill := some (pd.ask + tp * pip_value instrument) } ∧
    place_order (some pd) instrument us (some sl) (some tp) =
      some { units := us, instrument := instrument,
             timeInForce := "FOK", orderType := "MARKET",
             positionFill := "DEFAULT",
             stopLossOnFill := some (pd.bid - sl * pip_value instrument),
             takeProfitOnFill := some (pd.bid + tp * pip_value instrument) } ∧
    pd.bid < pd.bid + tp * pip_value instrument ∧
    pd.bid - sl * pip_value instrument < pd.bid := by
  have hpip := pip_value_pos instrument
  refine ⟨?_, ?_, ?_, ?_⟩
  · unfold place_order
    dsimp only
    rw [if_pos hub]
    simp [stop_loss_price, take_profit_price, h1, h2]
  · unfold place_order
    dsimp only
    rw [if_neg (by omega : ¬ (0 : ℤ) < us)]
    simp [stop_loss_price, take_profit_price, h3, h4]
  · nlinarith
  · nlinarith

/-- Witness for C10 at concrete buy units 5 and sell units -5 on EUR_USD
with bid 1.09, ask 1.1, sl = tp = 25. -/
theorem C10_sl_tp_same_signs_witness :
    ((0 : ℤ) < 5) ∧
    (place_order (some (PriceData.mk (11/10) (109/100))) "EUR_USD" 5
        (some 25) (some 25) =
      some { units := 5, instrument := "EUR_USD",
             timeInForce := "FOK", orderType := "MARKET",
             positionFill := "DEFAULT",
             stopLossOnFill := some ((11 : ℚ)/10 - 25 * pip_value "EUR_USD"),
             takeProfitOnFill :=
               some ((11 : ℚ)/10 + 25 * pip_value "EUR_USD") } ∧
     place_order (some (PriceData.mk (11/10) (109/100))) "EUR_USD" (-5)
        (some 25) (some 25) =
      some { units := -5, instrument := "EUR_USD",
             timeInForce := "FOK", orderType := "MARKET",
             positionFill := "DEFAULT",
             stopLossOnFill :=
               some ((109 : ℚ)/100 - 25 * pip_value "EUR_USD"),
             takeProfitOnFill :=
               some ((109 : ℚ)/100 + 25 * pip_value "EUR_USD") } ∧
     (109 : ℚ)/100 < (109 : ℚ)/100 + 25 * pip_value "EUR_USD" ∧
     (109 : ℚ)/100 - 25 * pip_value "EUR_USD" < (109 : ℚ)/100) :=
  ⟨by norm_num,
   C10_sl_tp_same_signs (PriceData.mk (11/10) (109/100)) "EUR_USD" 25 25
     5 (-5) (by norm_num) (by norm_num) (by norm_num) (by norm_num)
     (by rw [pip_value_eurusd]; norm_num)
     (by rw [pip_value_eurusd]; norm_num)
     (by rw [pip_value_eurusd]; norm_num)
     (by rw [pip_value_eurusd]; norm_num)⟩

/-- The 61-bid test sequence of the end-to-end scenario: prices
1.1000, 1.1001, …, 1.1060 strictly increasing, one tick per simulated
second, the k-th tick arriving k seconds after the accumulator was
initialized at time 0. -/
def c2Ticks : List Tick :=
  [Tick.mk 1 (11000/10000),
   Tick.mk 2 (11001/10000),
   Tick.mk 3 (11002/10000),
   Tick.mk 4 (11003/10000),
   Tick.mk 5 (11004/10000),
   Tick.mk 6 (11005/10000),
   Tick.mk 7 (11006/10000),
   Tick.mk 8 (11007/10000),
   Tick.mk 9 (11008/10000),
   Tick.mk 10 (11009/10000),
   Tick.mk 11 (11010/10000),
   Tick.mk 12 (11011/10000),
   Tick.mk 13 (11012/10000),
   Tick.mk 14 (11013/10000),
   Tick.mk 15 (11014/10000),
   Tick.mk 16 (11015/10000),
   Tick.mk 17 (11016/10000),
   Tick.mk 18 (11017/10000),
   Tick.mk 19 (11018/10000),
   Tick.mk 20 (11019/10000),
   Tick.mk 21 (11020/10000),
   Tick.mk 22 (11021/10000),
   Tick.mk 23 (11022/10000),
   Tick.mk 24 (11023/10000),
   Tick.mk 25 (11024/10000),
   Tick.mk 26 (11025/10000),
   Tick.mk 27 (11026/10000),
   Tick.mk 28 (11027/10000),
   Tick.mk 29 (11028/10000),
   Tick.mk 30 (11029/10000),
   Tick.mk 31 (11030/10000),
   Tick.mk 32 (11031/10000),
   Tick.mk 33 (11032/10000),
   Tick.mk 34 (11033/10000),
   Tick.mk 35 (11034/10000),
   Tick.mk 36 (11035/10000),
   Tick.mk 37 (11036/10000),
   Tick.mk 38 (11037/10000),
   Tick.mk 39 (11038/10000),
   Tick.mk 40 (11039/10000),
   Tick.mk 41 (11040/10000),
   Tick.mk 42 (11041/10000),
   Tick.mk 43 (11042/10000),
   Tick.mk 44 (11043/10000),
   Tick.mk 45 (11044/10000),
   Tick.mk 46 (11045/10000),
   Tick.mk 47 (11046/10000),
   Tick.mk 48 (11047/10000),
   Tick.mk 49 (11048/10000),
   Tick.mk 50 (11049/10000),
   Tick.mk 51 (11050/10000),
   Tick.mk 52 (11051/10000),
   Tick.mk 53 (11052/10000),
   Tick.mk 54 (11053/10000),
   Tick.mk 55 (11054/10000),
   Tick.mk 56 (11055/10000),
   Tick.mk 57 (11056/10000),
   Tick.mk 58 (11057/10000),
   Tick.mk 59 (11058/10000),
   Tick.mk 60 (11059/10000),
   Tick.mk 61 (11060/10000)]

/-- C2: feeding the 61 strictly increasing bids, one per simulated second,
with a 60-second window, no open position, inside trading hours, produces
exactly one finalized Bar with open = 1.1000, low = 1.1000, volume = 60,
close and high both equal to 1.1059 — the last price processed before the
elapsed check fired (the tick arriving 60 s after the window start is
counted into the bar first and then triggers finalization) — and dispatches
no order, because the RSI is absent on a one-bar series. -/
theorem C2_end_to_end :
    (processStream 60
        { positions := [], weekday := 0, tod := 43200, balance := 1000,
          price_data := some (PriceData.mk (11/10) (11/10)),
          instrument := "EUR_USD" }
        (initState 0) c2Ticks).df =
      [Bar.mk 0 (some (11/10)) (some (11059/10000)) (some (11/10))
        (some (11059/10000)) 60] ∧
    (processStream 60
        { positions := [], weekday := 0, tod := 43200, balance := 1000,
          price_data := some (PriceData.mk (11/10) (11/10)),
          instrument := "EUR_USD" }
        (initState 0) c2Ticks).orders = [] := by
  norm_num [processStream, c2Ticks, processTick, update_ohlc, initState,
    initialize_ohlc, reset_ohlc, mkRow, appendRow, rowAllNA, start_time_isNA,
    volume_isNA, trade_based_on_rsi, latestRSI, rsi, closesOf,
    List.foldl_cons, List.foldl_nil]
